import Mathlib

/-!
# BugFlow triage pipeline — verification development

A shallow embedding of the BugFlow triage pipeline, translated from:

* `src/lib/ai/bug-analysis-agent.ts` — classifier fallback, embedder,
  cosine similarity, duplicate detection (`BugAnalysisAgent`);
* `src/lib/validations.ts` (engineer-assignment part) — team mapping,
  engineer scoring, assignment and reassignment
  (`EngineerAssignmentService`);
* the Inngest orchestrator (`processReport`) that sequences the steps.

Modelling conventions:

* JavaScript numbers are modelled as exact rationals (`ℚ`); integer
  counters and scores as `ℤ`/`Nat`.  Floating-point rounding is outside
  the scope of this development.
* `Math.sqrt` has no exact rational counterpart.  Every statement proved
  here depends on the square root only through its sign (`sqrt q = 0`
  iff `q = 0` for `q ≥ 0`, and `sqrt q > 0` for `q > 0`) and through its
  role as the denominator of the returned quotient.  `msqrt` below is a
  rational stand-in with exactly that sign behaviour.
* The Prisma store is modelled as in-memory lists of rows; `create` is
  an append, `update`/`updateMany` map over matching rows.  Foreign-key
  constraints are not modelled.
* Fallible external calls (the hosted model, the embedding endpoint)
  are modelled by passing their outcome in as a value of an explicit
  outcome type; `try/catch` becomes a `match` on that outcome.
-/

namespace BugFlow

/-- Report severity enum (Prisma `Severity`). -/
inductive Severity
  | LOW
  | MEDIUM
  | HIGH
  | CRITICAL
deriving DecidableEq

/-- Report status enum (Prisma `ReportStatus`). -/
inductive RStatus
  | NEW
  | IN_PROGRESS
  | RESOLVED
  | DUPLICATE
  | REJECTED
deriving DecidableEq

/-- Assignment status enum (Prisma `AssignmentStatus`). -/
inductive AStatus
  | ACTIVE
  | COMPLETED
  | REASSIGNED
deriving DecidableEq

/-- User role enum (Prisma `Role`). -/
inductive Role
  | ADMIN
  | ENGINEER
  | VIEWER
deriving DecidableEq

/-- The string form of a severity, as it appears in the TypeScript enums. -/
def severityToString : Severity → String
  | .LOW => "LOW"
  | .MEDIUM => "MEDIUM"
  | .HIGH => "HIGH"
  | .CRITICAL => "CRITICAL"

/-! ## Text scanning (classifier keyword fallback)

`text.toLowerCase().includes(pattern)` is modelled on character lists:
`containsKw text kw` holds when the lower-cased characters of `text`
contain the characters of `kw` as a contiguous run. -/

/-- Lower-cased character list of a string (JS `text.toLowerCase()`). -/
def lowerChars (s : String) : List Char :=
  s.toList.map Char.toLower

/-- `hay.includes(needle)` on character lists. -/
def listIncludes (hay needle : List Char) : Bool :=
  hay.tails.any (fun t => needle.isPrefixOf t)

/-- JS `textLower.includes(kw)` where `textLower` is `text` lower-cased. -/
def containsKw (text : String) (kw : String) : Bool :=
  listIncludes (lowerChars text) kw.toList

/-- `bugTypePatterns` of `BugAnalysisAgent.extractBugTypeFromText`,
in object-literal insertion order. -/
def bugTypePatterns : List (String × List String) :=
  [("XSS", ["xss", "cross-site scripting", "script injection", "javascript injection"]),
   ("SQL Injection", ["sql injection", "sqli", "database injection", "union select"]),
   ("CSRF", ["csrf", "cross-site request forgery", "request forgery"]),
   ("Authentication Bypass", ["auth bypass", "authentication bypass", "login bypass"]),
   ("Authorization", ["authorization", "access control", "privilege escalation"]),
   ("RCE", ["rce", "remote code execution", "code execution"]),
   ("SSRF", ["ssrf", "server-side request forgery"]),
   ("Information Disclosure", ["information disclosure", "data leak", "sensitive data"]),
   ("Business Logic", ["business logic", "logic flaw", "workflow"])]

/-- `BugAnalysisAgent.extractBugTypeFromText`: first pattern group with a
matching keyword wins; `"Unknown"` when none match. -/
def extractBugTypeFromText (text : String) : String :=
  match bugTypePatterns.find? (fun p => p.2.any (fun pat => containsKw text pat)) with
  | some p => p.1
  | none => "Unknown"

/-- CRITICAL-tier keywords of `assessSeverityFromKeywords`. -/
def criticalKeywords : List String :=
  ["rce", "remote code execution", "system compromise", "admin access", "root access"]

/-- HIGH-tier keywords of `assessSeverityFromKeywords`. -/
def highKeywords : List String :=
  ["privilege escalation", "sensitive data", "authentication bypass", "sql injection"]

/-- MEDIUM-tier keywords of `assessSeverityFromKeywords`. -/
def mediumKeywords : List String :=
  ["xss", "csrf", "information disclosure", "denial of service"]

/-- `BugAnalysisAgent.assessSeverityFromKeywords`: tiers tested in the
order CRITICAL, HIGH, MEDIUM; `LOW` when nothing matches. -/
def assessSeverityFromKeywords (text : String) : Severity :=
  if criticalKeywords.any (fun kw => containsKw text kw) then .CRITICAL
  else if highKeywords.any (fun kw => containsKw text kw) then .HIGH
  else if mediumKeywords.any (fun kw => containsKw text kw) then .MEDIUM
  else .LOW

/-! ## Classifier (`BugAnalysisAgent.analyzeReport`) -/

/-- The structured classification result (`BugAnalysisSchema`). -/
structure BugAnalysis where
  bugType : String
  severity : Severity
  affectedSystem : String
  confidence : ℚ
  summary : String
  technicalDetails : List String
  suggestedAssignment : Option String
deriving DecidableEq

/-- `BugAnalysisAgent.analyzeReport`.  The outcome of the
`generateObject` call is passed in: `.ok o` is a schema-valid model
response, `.error` any transport/parse/schema failure.  The `catch`
branch builds the deterministic fallback result. -/
def analyzeReport (aiOutcome : Except Unit BugAnalysis)
    (title description : String) (affectedSystem : Option String) : BugAnalysis :=
  match aiOutcome with
  | .ok o => o
  | .error _ =>
    { bugType := extractBugTypeFromText (title ++ " " ++ description)
      severity := assessSeverityFromKeywords (title ++ " " ++ description)
      affectedSystem := affectedSystem.getD "Unknown"
      confidence := 3 / 10
      summary := "AI analysis failed, manual review required for: " ++ title
      technicalDetails := ["AI analysis unavailable", "Manual classification needed"]
      suggestedAssignment := some "security" }

/-! ## Embedder (`BugAnalysisAgent.generateEmbedding`) -/

/-- What `await response.json()` followed by `data.data[0].embedding`
yields for the embedding endpoint response body. -/
inductive BodyParse
  | jsonError
  | missingField
  | embeddingValue (v : List ℚ)
deriving DecidableEq

/-- An HTTP response from the embedding endpoint. -/
structure HttpResponse where
  status : Nat
  body : BodyParse
deriving DecidableEq

/-- JS `response.ok`: status in the 2xx range. -/
def responseOk (r : HttpResponse) : Bool :=
  200 ≤ r.status && r.status ≤ 299

/-- `BugAnalysisAgent.generateEmbedding`.  The `fetch` outcome is passed
in (`.error` = transport failure / rejected promise).  A non-2xx status
throws inside the `try`, and a malformed body throws while extracting
`data.data[0].embedding`; every throw is caught and mapped to `null`
(modelled as `none`). -/
def generateEmbedding (outcome : Except Unit HttpResponse) : Option (List ℚ) :=
  match outcome with
  | .error _ => none
  | .ok r =>
    if responseOk r then
      match r.body with
      | .embeddingValue v => some v
      | _ => none
    else none

/-! ## Cosine similarity (`BugAnalysisAgent.cosineSimilarity`) -/

/-- `a.reduce((sum, val, i) => sum + val * b[i], 0)`; only evaluated on
equal-length vectors (the length guard comes first in the source). -/
def dotProduct (a b : List ℚ) : ℚ :=
  ((a.zip b).foldl (fun s p => s + p.1 * p.2) 0)

/-- `v.reduce((sum, val) => sum + val * val, 0)` — the squared magnitude. -/
def sumsq (v : List ℚ) : ℚ :=
  v.foldl (fun s x => s + x * x) 0

/-- Model of `Math.sqrt` on the exact rationals.  An exact rational
square root does not exist; every claim below depends on the square
root only through its sign (zero exactly on zero input, positive on
positive input — which decides the division guard) and through its role
as the denominator of the returned quotient, and `msqrt` has exactly
that sign behaviour. -/
def msqrt (q : ℚ) : ℚ :=
  if q ≤ 0 then 0 else q

/-- `BugAnalysisAgent.cosineSimilarity`: returns 0 on a length mismatch,
returns 0 when either magnitude is zero, and divides only otherwise. -/
def cosineSimilarity (a b : List ℚ) : ℚ :=
  if a.length ≠ b.length then 0
  else
    let dotP := dotProduct a b
    let magnitudeA := msqrt (sumsq a)
    let magnitudeB := msqrt (sumsq b)
    if magnitudeA = 0 ∨ magnitudeB = 0 then 0
    else dotP / (magnitudeA * magnitudeB)

/-! ## Data model (Prisma rows) -/

/-- The stored `embedding` column after the DB-level `not: null` filter:
a JSON string that either parses back to a vector or is corrupt
(`JSON.parse` throws). -/
inductive EmbeddingCell
  | corrupt
  | vec (v : List ℚ)
deriving DecidableEq

/-- Payload written to `report.aiAnalysis` by the orchestrator. -/
structure StoredAnalysis where
  analysis : BugAnalysis
  processedAt : String
  duplicatesFound : Nat
deriving DecidableEq

/-- A `Report` row. -/
structure Report where
  id : String
  title : String
  description : String
  affectedSystem : Option String
  reporterName : Option String
  reporterEmail : Option String
  bugType : Option String
  severity : Option Severity
  status : RStatus
  assignedEngineerId : Option String
  duplicateOfId : Option String
  embedding : Option EmbeddingCell
  aiAnalysis : Option StoredAnalysis
deriving DecidableEq

/-- A `User` row (the fields the triage pipeline reads). -/
structure User where
  id : String
  name : Option String
  email : String
  team : Option String
  role : Role
deriving DecidableEq

/-- An `Assignment` row. -/
structure Assignment where
  reportId : String
  engineerId : String
  assignedBy : String
  status : AStatus
deriving DecidableEq

/-- A `ReportComment` row. -/
structure ReportComment where
  reportId : String
  userId : String
  comment : String
deriving DecidableEq

/-- The relational store. -/
structure DB where
  users : List User
  reports : List Report
  assignments : List Assignment
  comments : List ReportComment
deriving DecidableEq

/-! ## Stable descending sort

JS `Array.prototype.sort` with comparator `(a, b) => key(b) - key(a)` is
a stable sort into descending key order.  A stable insertion sort is
extensionally the same function and is structurally recursive, so it
evaluates by kernel reduction. -/

/-- Insert `x` (an element earlier in the input) into an already sorted
suffix: `x` goes in front of the first element whose key is `≤` its
own, which keeps equal-key elements in input order. -/
def insertKeyDesc {α β : Type} [LinearOrder β] (key : α → β) (x : α) :
    List α → List α
  | [] => [x]
  | y :: ys => if key y ≤ key x then x :: y :: ys else y :: insertKeyDesc key x ys

/-- Stable sort into descending key order. -/
def sortByKeyDesc {α β : Type} [LinearOrder β] (key : α → β) : List α → List α
  | [] => []
  | x :: xs => insertKeyDesc key x (sortByKeyDesc key xs)

theorem mem_insertKeyDesc {α β : Type} [LinearOrder β] (key : α → β) (x a : α)
    (l : List α) : a ∈ insertKeyDesc key x l ↔ a = x ∨ a ∈ l := by
  induction l with
  | nil => simp [insertKeyDesc]
  | cons y ys ih =>
    simp only [insertKeyDesc]
    by_cases h : key y ≤ key x
    · simp [h]
    · simp only [if_neg h, List.mem_cons, ih]
      tauto

theorem mem_sortByKeyDesc {α β : Type} [LinearOrder β] (key : α → β) (a : α)
    (l : List α) : a ∈ sortByKeyDesc key l ↔ a ∈ l := by
  induction l with
  | nil => simp [sortByKeyDesc]
  | cons x xs ih => simp [sortByKeyDesc, mem_insertKeyDesc, ih]

theorem length_insertKeyDesc {α β : Type} [LinearOrder β] (key : α → β) (x : α)
    (l : List α) : (insertKeyDesc key x l).length = l.length + 1 := by
  induction l with
  | nil => rfl
  | cons y ys ih =>
    simp only [insertKeyDesc]
    by_cases h : key y ≤ key x
    · simp [h]
    · simp [h, ih]

theorem length_sortByKeyDesc {α β : Type} [LinearOrder β] (key : α → β)
    (l : List α) : (sortByKeyDesc key l).length = l.length := by
  induction l with
  | nil => rfl
  | cons x xs ih => simp [sortByKeyDesc, length_insertKeyDesc, ih]

theorem pairwise_insertKeyDesc {α β : Type} [LinearOrder β] (key : α → β)
    (x : α) (l : List α) (h : l.Pairwise (fun a b => key b ≤ key a)) :
    (insertKeyDesc key x l).Pairwise (fun a b => key b ≤ key a) := by
  induction l with
  | nil => simp [insertKeyDesc]
  | cons y ys ih =>
    simp only [insertKeyDesc]
    rcases List.pairwise_cons.mp h with ⟨hy, hys⟩
    by_cases hk : key y ≤ key x
    · rw [if_pos hk]
      refine List.pairwise_cons.mpr ⟨?_, h⟩
      intro b hb
      rcases List.mem_cons.mp hb with rfl | hb
      · exact hk
      · exact le_trans (hy b hb) hk
    · rw [if_neg hk]
      refine List.pairwise_cons.mpr ⟨?_, ih hys⟩
      intro b hb
      rcases (mem_insertKeyDesc key x b ys).mp hb with rfl | hb
      · exact le_of_not_le hk
      · exact hy b hb

theorem pairwise_sortByKeyDesc {α β : Type} [LinearOrder β] (key : α → β)
    (l : List α) : (sortByKeyDesc key l).Pairwise (fun a b => key b ≤ key a) := by
  induction l with
  | nil => simp [sortByKeyDesc]
  | cons x xs ih => exact pairwise_insertKeyDesc key x _ ih

/-! ## Duplicate detection (`BugAnalysisAgent.findSimilarReports`) -/

/-- One similarity match (id, title, status, similarity). -/
structure SimilarityMatch where
  id : String
  title : String
  status : RStatus
  similarity : ℚ
deriving DecidableEq

/-- `BugAnalysisAgent.findSimilarReports`.  A `null` query embedding
short-circuits to `[]` before the store is read.  Otherwise: load rows
with a non-null embedding, excluding `excludeReportId` when given (both
conditions sit in the Prisma `where` clause); per candidate, parse the
stored embedding — a corrupt row maps to `null` and is filtered out —
and compute the similarity; keep matches at or above `threshold`; sort
by similarity descending (stable); keep the top 10. -/
def findSimilarReports (reports : List Report) (embedding : Option (List ℚ))
    (threshold : ℚ) (excludeReportId : Option String) :
    List SimilarityMatch :=
  match embedding with
  | none => []
  | some emb =>
    let rows := reports.filter (fun r =>
      r.embedding.isSome &&
        (match excludeReportId with
         | none => true
         | some ex => !(r.id == ex)))
    let similarities := rows.filterMap (fun r =>
      match r.embedding with
      | some (.vec v) =>
        some { id := r.id, title := r.title, status := r.status,
               similarity := cosineSimilarity emb v : SimilarityMatch }
      | _ => none)
    ((sortByKeyDesc (fun m => m.similarity)
        (similarities.filter (fun m => threshold ≤ m.similarity))).take 10)

/-! ## Engineer assignment (`EngineerAssignmentService`) -/

/-- `EngineerAssignmentService.bugTypeToTeamMapping`, in object-literal
order.  Note the infrastructure keys are the long labels
`"Server-Side Request Forgery"` and `"Remote Code Execution"`, not the
short labels `"SSRF"` / `"RCE"` that the classifier produces. -/
def bugTypeToTeamMapping : List (String × String) :=
  [("XSS", "frontend"),
   ("DOM-based XSS", "frontend"),
   ("Client-side Injection", "frontend"),
   ("CORS", "frontend"),
   ("Content Security Policy", "frontend"),
   ("SQL Injection", "backend"),
   ("API Security", "backend"),
   ("Input Validation", "backend"),
   ("Business Logic", "backend"),
   ("Command Injection", "backend"),
   ("Path Traversal", "backend"),
   ("Authentication Bypass", "security"),
   ("Authorization", "security"),
   ("CSRF", "security"),
   ("Session Management", "security"),
   ("Cryptography", "security"),
   ("Information Disclosure", "security"),
   ("Network Security", "infrastructure"),
   ("Denial of Service", "infrastructure"),
   ("Configuration", "infrastructure"),
   ("Server-Side Request Forgery", "infrastructure"),
   ("Remote Code Execution", "infrastructure")]

/-- Raw table lookup `this.bugTypeToTeamMapping[bugType]` (may be
`undefined`, modelled as `none`). -/
def lookupTeam (bugType : String) : Option String :=
  (bugTypeToTeamMapping.find? (fun p => p.1 == bugType)).map Prod.snd

/-- `this.bugTypeToTeamMapping[analysis.bugType] || 'security'` — the
defaulted mapping used to pick the candidate team in `assignEngineer`. -/
def bugTypeToTeam (bugType : String) : String :=
  (lookupTeam bugType).getD "security"

/-- `BugAnalysisAgent.suggestTeamAssignment`: the agent's own
`teamMappings` table (this one does key `"SSRF"` and `"RCE"`), with the
same `|| 'security'` default.  `assignEngineer` does not call it. -/
def suggestTeamAssignment (bugType : String) : String :=
  (([("XSS", "frontend"),
     ("DOM-based XSS", "frontend"),
     ("Client-side Injection", "frontend"),
     ("CORS", "frontend"),
     ("SQL Injection", "backend"),
     ("API Security", "backend"),
     ("Input Validation", "backend"),
     ("Business Logic", "backend"),
     ("Command Injection", "backend"),
     ("Authentication Bypass", "security"),
     ("Authorization", "security"),
     ("CSRF", "security"),
     ("Session Management", "security"),
     ("Cryptography", "security"),
     ("Information Disclosure", "security"),
     ("Network Security", "infrastructure"),
     ("Denial of Service", "infrastructure"),
     ("Configuration", "infrastructure"),
     ("SSRF", "infrastructure"),
     ("RCE", "infrastructure")] :
      List (String × String)).find? (fun p => p.1 == bugType)).map Prod.snd
    |>.getD "security"

/-- The analysis argument of `assignEngineer` (its TS interface types
`severity` as a plain string). -/
structure AnalysisInput where
  bugType : String
  severity : String
  affectedSystem : String
  confidence : ℚ
deriving DecidableEq

/-- A candidate row produced by `findAvailableEngineers`. -/
structure EngineerInfo where
  id : String
  name : Option String
  email : String
  team : Option String
  activeReports : Nat
  criticalReports : Nat
deriving DecidableEq

/-- The reports currently assigned to `userId` with status NEW or
IN_PROGRESS (the `assignedReports` include of the Prisma query). -/
def activeAssignedReports (db : DB) (userId : String) : List Report :=
  db.reports.filter (fun r =>
    r.assignedEngineerId == some userId &&
      (r.status == RStatus.NEW || r.status == RStatus.IN_PROGRESS))

/-- `EngineerAssignmentService.findAvailableEngineers`: all
ENGINEER-role users (restricted to `team` when one is given), each with
its active-report and critical-report counts. -/
def findAvailableEngineers (db : DB) (team : Option String) :
    List EngineerInfo :=
  (db.users.filter (fun u =>
      u.role == Role.ENGINEER &&
        (match team with
         | none => true
         | some t => u.team == some t))).map
    (fun u =>
      let act := activeAssignedReports db u.id
      { id := u.id, name := u.name, email := u.email, team := u.team,
        activeReports := act.length,
        criticalReports :=
          (act.filter (fun r => r.severity == some Severity.CRITICAL)).length })

/-- The scoring block of `EngineerAssignmentService.selectBestEngineer`,
statement by statement.  The team bonus compares `engineer.team` with
the raw lookup `this.bugTypeToTeamMapping[analysis.bugType]` (no
`'security'` default): `null === undefined` and `null === "..."` are
both false in JS, so the bonus needs both sides present and equal. -/
def engineerScore (e : EngineerInfo) (analysis : AnalysisInput) : ℤ :=
  let base : ℤ := 100
  let afterLoad := base - 10 * (e.activeReports : ℤ) - 20 * (e.criticalReports : ℤ)
  let afterBonus :=
    match lookupTeam analysis.bugType, e.team with
    | some expected, some t => if t == expected then afterLoad + 30 else afterLoad
    | _, _ => afterLoad
  if analysis.severity == "CRITICAL" then
    afterBonus - 30 * (e.criticalReports : ℤ)
  else afterBonus

/-- `EngineerAssignmentService.selectBestEngineer`: score every
candidate, sort by score descending (JS stable sort), take the first.
The source attaches the score as an extra field before sorting and
returns `scoredEngineers[0]`; sorting the candidates by their score key
is the same computation with the score field projected away. -/
def selectBestEngineer (engineers : List EngineerInfo)
    (analysis : AnalysisInput) : Option EngineerInfo :=
  (sortByKeyDesc (fun e => engineerScore e analysis) engineers).head?

/-- `AssignmentResult` of the assignment service. -/
structure AssignmentResult where
  success : Bool
  assignedEngineerId : Option String
  engineerName : Option String
  team : Option String
  reason : Option String
  error : Option String
deriving DecidableEq

/-- Update the report row `reportId` (Prisma `report.update`). -/
def updateReport (db : DB) (reportId : String) (f : Report → Report) : DB :=
  { db with reports := db.reports.map (fun r => if r.id == reportId then f r else r) }

/-- `EngineerAssignmentService.assignEngineer`.  Map the bug type to a
team (default `"security"`), load that team's engineers; when empty,
fall back to the global engineer pool; when that is empty too, return a
failure result without touching the store.  Otherwise pick the
best-scoring engineer, append an ACTIVE assignment row, and set the
report's engineer reference and `IN_PROGRESS` status. -/
def assignEngineer (db : DB) (reportId : String) (analysis : AnalysisInput)
    (assignedBy : String) : AssignmentResult × DB :=
  let suggestedTeam := bugTypeToTeam analysis.bugType
  let teamEngineers := findAvailableEngineers db (some suggestedTeam)
  let candidates :=
    if teamEngineers.isEmpty then findAvailableEngineers db none else teamEngineers
  match selectBestEngineer candidates analysis with
  | none =>
    ({ success := false,
       assignedEngineerId := none, engineerName := none, team := none,
       error := some "No available engineers found",
       reason := some "All engineers are at capacity or no engineers exist in the system" },
     db)
  | some selected =>
    let db1 := { db with assignments := db.assignments ++
      [{ reportId := reportId, engineerId := selected.id,
         assignedBy := assignedBy, status := AStatus.ACTIVE }] }
    let db2 := updateReport db1 reportId (fun r =>
      { r with assignedEngineerId := some selected.id,
               status := RStatus.IN_PROGRESS })
    ({ success := true,
       assignedEngineerId := some selected.id,
       engineerName := some (selected.name.getD "Unknown"),
       team := some (selected.team.getD "Unknown"),
       reason := some ("Assigned to " ++ (selected.team.getD "Unknown") ++
         " team based on bug type: " ++ analysis.bugType),
       error := none },
     db2)

/-- `EngineerAssignmentService.reassignReport`.  Reject a target that is
missing or not an ENGINEER.  Otherwise mark the ACTIVE assignments of
the report REASSIGNED, append a fresh ACTIVE assignment, set the report
row to the new engineer with status `IN_PROGRESS`, and append an audit
comment.  Prisma's `report.update` throws (`P2025`) when the row is
missing; the `catch` then returns a failure result with the assignment
rows already written (there is no surrounding transaction). -/
def reassignReport (db : DB) (reportId newEngineerId assignedBy : String)
    (reason : Option String) : AssignmentResult × DB :=
  match db.users.find? (fun u => u.id == newEngineerId) with
  | none =>
    ({ success := false,
       assignedEngineerId := none, engineerName := none, team := none,
       error := some "Invalid engineer selected",
       reason := some "The selected user is not an engineer or does not exist" },
     db)
  | some newEngineer =>
    if newEngineer.role ≠ Role.ENGINEER then
      ({ success := false,
         assignedEngineerId := none, engineerName := none, team := none,
         error := some "Invalid engineer selected",
         reason := some "The selected user is not an engineer or does not exist" },
       db)
    else
      let db1 := { db with assignments :=
        (db.assignments.map (fun (a : Assignment) =>
          if a.reportId == reportId && a.status == AStatus.ACTIVE then
            { a with status := AStatus.REASSIGNED }
          else a)) ++
        [({ reportId := reportId, engineerId := newEngineerId,
            assignedBy := assignedBy, status := AStatus.ACTIVE } : Assignment)] }
      if db1.reports.any (fun r => r.id == reportId) then
        let db2 := updateReport db1 reportId (fun r =>
          { r with assignedEngineerId := some newEngineerId,
                   status := RStatus.IN_PROGRESS })
        let db3 := { db2 with comments := db2.comments ++
          [{ reportId := reportId, userId := assignedBy,
             comment := "Report reassigned to " ++
               (newEngineer.name.getD newEngineer.id) ++
               (match reason with
                | some why => ". Reason: " ++ why
                | none => "") }] }
        ({ success := true,
           assignedEngineerId := some newEngineerId,
           engineerName := some (newEngineer.name.getD "Unknown"),
           team := some (newEngineer.team.getD "Unknown"),
           reason := some (reason.getD "Manual reassignment"),
           error := none },
         db3)
      else
        ({ success := false,
           assignedEngineerId := none, engineerName := none, team := none,
           error := some "Failed to reassign report",
           reason := some "Record to update not found" },
         db1)

/-! ## Triage orchestrator (Inngest `processReport`) -/

/-- Events emitted with `inngest.send` during a triage run. -/
inductive Event
  | engineerAssigned (reportId engineerId bugType severity title : String)
deriving DecidableEq

/-- The processing summary the orchestrator returns. -/
structure TriageSummary where
  success : Bool
  reportId : String
  bugType : String
  severity : Severity
  confidence : ℚ
  duplicatesFound : Nat
  assigned : Bool
  assignedTo : Option String
deriving DecidableEq

/-- The system comment attached in the `handle-duplicate` step. -/
def mkDuplicateComment (reportId : String) (m : SimilarityMatch) : ReportComment :=
  { reportId := reportId, userId := "system",
    comment := "This report has been automatically marked as a duplicate of report " ++
      m.id ++ " (" ++ m.title ++ ") with " ++
      toString (round (m.similarity * 100)) ++ "% similarity." }

/-- The single `update-report-analysis` write of step 5: always bug
type, severity and the analysis payload; the embedding only when one
was produced; status `DUPLICATE` plus the top match as `duplicateOfId`
only when the duplicate list is non-empty. -/
def analysisUpdate (r : Report) (analysis : BugAnalysis)
    (embedding : Option (List ℚ)) (duplicates : List SimilarityMatch)
    (now : String) : Report :=
  let r1 := { r with
    bugType := some analysis.bugType,
    severity := some analysis.severity,
    aiAnalysis := some { analysis := analysis, processedAt := now,
                         duplicatesFound := duplicates.length } }
  let r2 :=
    match embedding with
    | some v => { r1 with embedding := some (EmbeddingCell.vec v) }
    | none => r1
  match duplicates with
  | [] => r2
  | d :: _ => { r2 with status := RStatus.DUPLICATE, duplicateOfId := some d.id }

/-- The duplicate list computed by step 4 (`check-duplicates`): skipped
straight to `[]` when no embedding is available, otherwise a
`findSimilarReports` scan at threshold 0.85 excluding the current
report. -/
def triageDuplicates (db : DB) (reportId : String)
    (embedOutcome : Except Unit HttpResponse) : List SimilarityMatch :=
  match generateEmbedding embedOutcome with
  | none => []
  | some emb => findSimilarReports db.reports (some emb) (85 / 100) (some reportId)

/-- JS truthiness of `assignmentResult.assignedEngineerId` in the
notification guard: present and not the empty string. -/
def truthyId : Option String → Bool
  | none => false
  | some s => !(s == "")

/-- Steps 2–7 of the orchestrator, once the report row was fetched
(steps never throw past this point, so the run always returns a
summary).  Returns the summary, the final store, and the events
emitted. -/
def processFound (db : DB) (reportId : String) (report : Report)
    (aiOutcome : Except Unit BugAnalysis)
    (embedOutcome : Except Unit HttpResponse) (now : String) :
    TriageSummary × DB × List Event :=
  let analysis := analyzeReport aiOutcome report.title report.description
    report.affectedSystem
  let embedding := generateEmbedding embedOutcome
  let duplicates := triageDuplicates db reportId embedOutcome
  let db1 := updateReport db reportId
    (fun r => analysisUpdate r analysis embedding duplicates now)
  match duplicates with
  | [] =>
    let assigned := assignEngineer db1 reportId
      { bugType := analysis.bugType,
        severity := severityToString analysis.severity,
        affectedSystem := analysis.affectedSystem,
        confidence := analysis.confidence } "system"
    let result := assigned.1
    let db2 := assigned.2
    let events :=
      if result.success && truthyId result.assignedEngineerId then
        [Event.engineerAssigned reportId (result.assignedEngineerId.getD "")
          analysis.bugType (severityToString analysis.severity) report.title]
      else []
    ({ success := true, reportId := reportId,
       bugType := analysis.bugType, severity := analysis.severity,
       confidence := analysis.confidence,
       duplicatesFound := duplicates.length,
       assigned := result.success, assignedTo := result.engineerName },
     db2, events)
  | d :: _ =>
    let db2 :=
      match db1.users.find? (fun u => u.id == "system") with
      | none => db1
      | some _ => { db1 with comments := db1.comments ++ [mkDuplicateComment reportId d] }
    ({ success := true, reportId := reportId,
       bugType := analysis.bugType, severity := analysis.severity,
       confidence := analysis.confidence,
       duplicatesFound := duplicates.length,
       assigned := false, assignedTo := none },
     db2, [])

/-- The whole `processReport` Inngest function.  A missing report is
the one fatal error (`throw` in `fetch-report`); every later step
resolves to a summary. -/
def processReport (db : DB) (reportId : String)
    (aiOutcome : Except Unit BugAnalysis)
    (embedOutcome : Except Unit HttpResponse) (now : String) :
    Except Unit (TriageSummary × DB × List Event) :=
  match db.reports.find? (fun r => r.id == reportId) with
  | none => .error ()
  | some report => .ok (processFound db reportId report aiOutcome embedOutcome now)

/-! ## Helper lemmas -/

theorem foldl_sq_ge_init (v : List ℚ) (init : ℚ) :
    init ≤ v.foldl (fun s x => s + x * x) init := by
  induction v generalizing init with
  | nil => exact le_refl _
  | cons x xs ih =>
    calc init ≤ init + x * x := le_add_of_nonneg_right (mul_self_nonneg x)
    _ ≤ xs.foldl (fun s x => s + x * x) (init + x * x) := ih _

theorem sumsq_nonneg (v : List ℚ) : 0 ≤ sumsq v :=
  foldl_sq_ge_init v 0

theorem msqrt_zero : msqrt 0 = 0 := by simp [msqrt]

theorem msqrt_eq_zero_iff (q : ℚ) (hq : 0 ≤ q) : msqrt q = 0 ↔ q = 0 := by
  unfold msqrt
  by_cases h : q ≤ 0
  · simp [h, le_antisymm h hq]
  · simp [h]

/-! ## Claim theorems -/

/-- C5: the cosine-similarity function is total and guarded: a length
mismatch or a zero magnitude (equivalently, a zero sum of squares)
yields exactly 0, and the division is performed only when both
magnitudes are non-zero. -/
theorem cosineSimilarity_guards :
    ∀ a b : List ℚ,
      (a.length ≠ b.length → cosineSimilarity a b = 0) ∧
      (sumsq a = 0 ∨ sumsq b = 0 → cosineSimilarity a b = 0) ∧
      (a.length = b.length → sumsq a ≠ 0 → sumsq b ≠ 0 →
        cosineSimilarity a b =
          dotProduct a b / (msqrt (sumsq a) * msqrt (sumsq b))) := by
  intro a b
  refine ⟨fun h => ?_, fun h => ?_, fun hlen ha hb => ?_⟩
  · simp [cosineSimilarity, h]
  · have hmag : msqrt (sumsq a) = 0 ∨ msqrt (sumsq b) = 0 := by
      rcases h with h | h
      · exact Or.inl (by rw [h, msqrt_zero])
      · exact Or.inr (by rw [h, msqrt_zero])
    unfold cosineSimilarity
    dsimp only
    by_cases hlen : a.length ≠ b.length
    · rw [if_pos hlen]
    · rw [if_neg hlen, if_pos hmag]
  · have ha' : msqrt (sumsq a) ≠ 0 := fun h0 =>
      ha ((msqrt_eq_zero_iff _ (sumsq_nonneg a)).mp h0)
    have hb' : msqrt (sumsq b) ≠ 0 := fun h0 =>
      hb ((msqrt_eq_zero_iff _ (sumsq_nonneg b)).mp h0)
    have hguard : ¬(msqrt (sumsq a) = 0 ∨ msqrt (sumsq b) = 0) := by
      push_neg
      exact ⟨ha', hb'⟩
    unfold cosineSimilarity
    dsimp only
    rw [if_neg (by simp [hlen]), if_neg hguard]

/-- Witness for C5: a length mismatch gives 0, a zero vector gives 0,
and two unit vectors take the division branch. -/
theorem cosineSimilarity_guards_witness :
    cosineSimilarity [0] [1, 2] = 0 ∧
    cosineSimilarity [0] [1] = 0 ∧
    cosineSimilarity [1] [1] =
      dotProduct [1] [1] / (msqrt (sumsq [1]) * msqrt (sumsq [1])) := by
  refine ⟨(cosineSimilarity_guards [0] [1, 2]).1 (by decide),
    (cosineSimilarity_guards [0] [1]).2.1 (Or.inl ?_),
    (cosineSimilarity_guards [1] [1]).2.2 rfl ?_ ?_⟩
  · norm_num [sumsq]
  · norm_num [sumsq]
  · norm_num [sumsq]

/-- C6: the embedder returns exactly the vector carried by a 2xx
well-formed response, and the explicit unavailable marker `none` on a
transport error, a non-2xx status, or a malformed body; whenever it
returns a vector, that vector came from the endpoint response — never a
synthetic placeholder. -/
theorem generateEmbedding_contract :
    (∀ e, generateEmbedding (Except.error e) = none) ∧
    (∀ r, responseOk r = false → generateEmbedding (Except.ok r) = none) ∧
    (∀ r, r.body = BodyParse.jsonError ∨ r.body = BodyParse.missingField →
      generateEmbedding (Except.ok r) = none) ∧
    (∀ o v, generateEmbedding o = some v →
      ∃ r, o = Except.ok r ∧ responseOk r = true ∧
        r.body = BodyParse.embeddingValue v) := by
  refine ⟨fun e => rfl, fun r h => ?_, fun r h => ?_, fun o v h => ?_⟩
  · simp [generateEmbedding, h]
  · rcases h with h | h <;> simp [generateEmbedding, h]
  · match o with
    | .error e => simp [generateEmbedding] at h
    | .ok r =>
      refine ⟨r, rfl, ?_, ?_⟩ <;>
      · unfold generateEmbedding at h
        by_cases hok : responseOk r
        · simp only [if_pos hok] at h
          match hb : r.body with
          | .jsonError => rw [hb] at h; simp at h
          | .missingField => rw [hb] at h; simp at h
          | .embeddingValue w => rw [hb] at h; simp at h; simp [hok, hb, h]
        · simp [if_neg hok] at h

/-- Witness for C6: a 500 status and a malformed 200 body give the
unavailable marker; a well-formed 200 response returns its own vector. -/
theorem generateEmbedding_contract_witness :
    generateEmbedding (Except.ok { status := 500, body := BodyParse.jsonError }) = none ∧
    generateEmbedding (Except.ok { status := 200, body := BodyParse.jsonError }) = none ∧
    ∃ r, (Except.ok { status := 200, body := BodyParse.embeddingValue [1] } :
            Except Unit HttpResponse) = Except.ok r ∧
      responseOk r = true ∧ r.body = BodyParse.embeddingValue [1] := by
  refine ⟨generateEmbedding_contract.2.1 _ rfl,
    generateEmbedding_contract.2.2.1 _ (Or.inl rfl),
    generateEmbedding_contract.2.2.2 _ [1] rfl⟩

/-- C7: the keyword severity fallback tests the tiers in the fixed
order CRITICAL, HIGH, MEDIUM, defaulting to LOW; any text containing a
CRITICAL keyword classifies as CRITICAL regardless of lower tiers. -/
theorem assessSeverityFromKeywords_tier_order :
    ∀ text : String,
      (criticalKeywords.any (fun kw => containsKw text kw) = true →
        assessSeverityFromKeywords text = Severity.CRITICAL) ∧
      (criticalKeywords.any (fun kw => containsKw text kw) = false →
        highKeywords.any (fun kw => containsKw text kw) = true →
        assessSeverityFromKeywords text = Severity.HIGH) ∧
      (criticalKeywords.any (fun kw => containsKw text kw) = false →
        highKeywords.any (fun kw => containsKw text kw) = false →
        mediumKeywords.any (fun kw => containsKw text kw) = true →
        assessSeverityFromKeywords text = Severity.MEDIUM) ∧
      (criticalKeywords.any (fun kw => containsKw text kw) = false →
        highKeywords.any (fun kw => containsKw text kw) = false →
        mediumKeywords.any (fun kw => containsKw text kw) = false →
        assessSeverityFromKeywords text = Severity.LOW) := by
  intro text
  refine ⟨fun h1 => ?_, fun h1 h2 => ?_, fun h1 h2 h3 => ?_, fun h1 h2 h3 => ?_⟩
  · simp [assessSeverityFromKeywords, h1]
  · simp [assessSeverityFromKeywords, h1, h2]
  · simp [assessSeverityFromKeywords, h1, h2, h3]
  · simp [assessSeverityFromKeywords, h1, h2, h3]

/-- Witness for C7: a text containing both an RCE keyword and an XSS
keyword classifies as CRITICAL. -/
theorem assessSeverityFromKeywords_tier_order_witness :
    containsKw "Found rce and xss together" "rce" = true ∧
    containsKw "Found rce and xss together" "xss" = true ∧
    assessSeverityFromKeywords "Found rce and xss together" = Severity.CRITICAL :=
  ⟨by decide, by decide,
    (assessSeverityFromKeywords_tier_order "Found rce and xss together").1 (by decide)⟩

/-- Counterexample to C2 as stated: under the assignment-service table,
the classifier labels `"SSRF"` and `"RCE"` map to the default
`"security"`, not to `"infrastructure"`. -/
theorem bugTypeToTeam_ssrf_rce_counterexample :
    bugTypeToTeam "SSRF" = "security" ∧
    bugTypeToTeam "SSRF" ≠ "infrastructure" ∧
    bugTypeToTeam "RCE" = "security" ∧
    bugTypeToTeam "RCE" ≠ "infrastructure" := by
  decide

/-- C2 (amended): assign maps bug types to teams through the fixed
static table; its infrastructure keys are the long labels
`"Server-Side Request Forgery"` and `"Remote Code Execution"`, and
every bug type not in the table — including the classifier labels
`"SSRF"` and `"RCE"` — defaults to `"security"`.  Only the separate
`suggestTeamAssignment` table of the analysis agent, which assign does
not consult, maps `"SSRF"` and `"RCE"` to `"infrastructure"`. -/
theorem bugTypeToTeam_table :
    (∀ bugType, lookupTeam bugType = none → bugTypeToTeam bugType = "security") ∧
    bugTypeToTeam "XSS" = "frontend" ∧
    bugTypeToTeam "SQL Injection" = "backend" ∧
    bugTypeToTeam "CSRF" = "security" ∧
    bugTypeToTeam "Authentication Bypass" = "security" ∧
    bugTypeToTeam "Authorization" = "security" ∧
    bugTypeToTeam "Session Management" = "security" ∧
    bugTypeToTeam "Cryptography" = "security" ∧
    bugTypeToTeam "Information Disclosure" = "security" ∧
    bugTypeToTeam "Network Security" = "infrastructure" ∧
    bugTypeToTeam "Denial of Service" = "infrastructure" ∧
    bugTypeToTeam "Configuration" = "infrastructure" ∧
    bugTypeToTeam "Server-Side Request Forgery" = "infrastructure" ∧
    bugTypeToTeam "Remote Code Execution" = "infrastructure" ∧
    bugTypeToTeam "SSRF" = "security" ∧
    bugTypeToTeam "RCE" = "security" ∧
    suggestTeamAssignment "SSRF" = "infrastructure" ∧
    suggestTeamAssignment "RCE" = "infrastructure" := by
  refine ⟨fun bugType h => ?_, ?_⟩
  · simp [bugTypeToTeam, h]
  · decide

/-- Witness for C2 (amended): a bug type absent from the table maps to
the default team. -/
theorem bugTypeToTeam_table_witness :
    lookupTeam "Some Novel Bug Type" = none ∧
    bugTypeToTeam "Some Novel Bug Type" = "security" :=
  ⟨by decide, bugTypeToTeam_table.1 "Some Novel Bug Type" (by decide)⟩

/-- Counterexample to C3 as stated: the fallback technical-details list
has two entries, not a single sentinel entry. -/
theorem analyzeReport_fallback_details_counterexample :
    (analyzeReport (Except.error ()) "Some title" "Some description"
        none).technicalDetails.length = 2 ∧
    (analyzeReport (Except.error ()) "Some title" "Some description"
        none).technicalDetails.length ≠ 1 := by
  decide

/-- C3 (amended): classify never fails the caller — a model success is
returned as is, and any failure yields the fully populated fallback
with confidence exactly 3/10, a summary stating that analysis failed,
a two-entry technical-details list (the unavailability sentinel plus a
manual-classification note), and suggested team `"security"`; when the
classification call throws, the triage pipeline still completes, with
bug type and severity from the keyword fallback and confidence 3/10. -/
theorem analyzeReport_contract :
    (∀ o title desc aff, analyzeReport (Except.ok o) title desc aff = o) ∧
    (∀ e title desc aff,
      analyzeReport (Except.error e) title desc aff =
        { bugType := extractBugTypeFromText (title ++ " " ++ desc),
          severity := assessSeverityFromKeywords (title ++ " " ++ desc),
          affectedSystem := aff.getD "Unknown",
          confidence := 3 / 10,
          summary := "AI analysis failed, manual review required for: " ++ title,
          technicalDetails := ["AI analysis unavailable", "Manual classification needed"],
          suggestedAssignment := some "security" }) ∧
    (∀ db reportId embedOutcome now report,
      db.reports.find? (fun r => r.id == reportId) = some report →
      ∃ s db2 evs,
        processReport db reportId (Except.error ()) embedOutcome now =
          Except.ok (s, db2, evs) ∧
        s.bugType = extractBugTypeFromText (report.title ++ " " ++ report.description) ∧
        s.severity = assessSeverityFromKeywords (report.title ++ " " ++ report.description) ∧
        s.confidence = 3 / 10) := by
  refine ⟨fun o title desc aff => rfl, fun e title desc aff => rfl,
    fun db reportId embedOutcome now report hf => ?_⟩
  simp only [processReport, hf]
  unfold processFound
  dsimp only
  cases triageDuplicates db reportId embedOutcome with
  | nil => exact ⟨_, _, _, rfl, rfl, rfl, rfl⟩
  | cons d ds => exact ⟨_, _, _, rfl, rfl, rfl, rfl⟩

/-- Witness for C3 (amended): a run over a one-report store in which
the classification call throws still completes, with the keyword
fallback classification. -/
theorem analyzeReport_contract_witness :
    ∃ s db2 evs,
      processReport
        { users := [],
          reports :=
            [{ id := "r0", title := "Stored xss issue", description := "desc text",
               affectedSystem := none, reporterName := none, reporterEmail := none,
               bugType := none, severity := none, status := RStatus.NEW,
               assignedEngineerId := none, duplicateOfId := none,
               embedding := none, aiAnalysis := none }],
          assignments := [], comments := [] }
        "r0" (Except.error ()) (Except.error ()) "2024-01-01" =
        Except.ok (s, db2, evs) ∧
      s.bugType = extractBugTypeFromText ("Stored xss issue" ++ " " ++ "desc text") ∧
      s.severity = assessSeverityFromKeywords ("Stored xss issue" ++ " " ++ "desc text") ∧
      s.confidence = 3 / 10 :=
  analyzeReport_contract.2.2
    { users := [],
      reports :=
        [{ id := "r0", title := "Stored xss issue", description := "desc text",
           affectedSystem := none, reporterName := none, reporterEmail := none,
           bugType := none, severity := none, status := RStatus.NEW,
           assignedEngineerId := none, duplicateOfId := none,
           embedding := none, aiAnalysis := none }],
      assignments := [], comments := [] }
    "r0" (Except.error ()) "2024-01-01"
    { id := "r0", title := "Stored xss issue", description := "desc text",
      affectedSystem := none, reporterName := none, reporterEmail := none,
      bugType := none, severity := none, status := RStatus.NEW,
      assignedEngineerId := none, duplicateOfId := none,
      embedding := none, aiAnalysis := none }
    (by decide)

/-- The candidate score as claim C9 words it: the team bonus keys on
the mapped team of the assignment step, which defaults unmapped bug
types to `"security"`. -/
def claimedScore (e : EngineerInfo) (analysis : AnalysisInput) : ℤ :=
  100 - 10 * (e.activeReports : ℤ) - 20 * (e.criticalReports : ℤ) +
    (if e.team = some (bugTypeToTeam analysis.bugType) then 30 else 0) -
    (if analysis.severity = "CRITICAL" then 30 * (e.criticalReports : ℤ) else 0)

/-- Counterexample to C9 as stated: for the unmapped bug type `"SSRF"`,
the mapped team is the default `"security"`, yet a security-team
candidate receives no bonus — the source compares against the raw
table lookup, which is undefined here — so the code score is 100 while
the claimed formula gives 130. -/
theorem engineerScore_claimed_formula_counterexample :
    engineerScore
        { id := "e1", name := none, email := "e1@x", team := some "security",
          activeReports := 0, criticalReports := 0 }
        { bugType := "SSRF", severity := "LOW", affectedSystem := "api",
          confidence := 0 } = 100 ∧
    claimedScore
        { id := "e1", name := none, email := "e1@x", team := some "security",
          activeReports := 0, criticalReports := 0 }
        { bugType := "SSRF", severity := "LOW", affectedSystem := "api",
          confidence := 0 } = 130 := by
  constructor
  · decide
  · decide

/-- C9 (amended): the score is 100 minus 10 per active report, minus 20
per critical report, plus 30 when the raw table lookup of the bug type
is defined and equals the candidate team (no `"security"` default in
the bonus), minus another 30 per critical report when the new report is
CRITICAL; a candidate with strictly more active reports, all else
equal, never outscores one with fewer. -/
theorem engineerScore_formula_monotonic :
    (∀ e analysis, engineerScore e analysis =
      100 - 10 * (e.activeReports : ℤ) - 20 * (e.criticalReports : ℤ) +
        (if lookupTeam analysis.bugType = e.team ∧ e.team ≠ none then 30 else 0) -
        (if analysis.severity = "CRITICAL" then 30 * (e.criticalReports : ℤ) else 0)) ∧
    (∀ e analysis n, e.activeReports < n →
      engineerScore { e with activeReports := n } analysis ≤
        engineerScore e analysis) := by
  have hformula : ∀ e analysis, engineerScore e analysis =
      100 - 10 * (e.activeReports : ℤ) - 20 * (e.criticalReports : ℤ) +
        (if lookupTeam analysis.bugType = e.team ∧ e.team ≠ none then 30 else 0) -
        (if analysis.severity = "CRITICAL" then 30 * (e.criticalReports : ℤ) else 0) := by
    intro e analysis
    unfold engineerScore
    dsimp only
    rcases hl : lookupTeam analysis.bugType with _ | expected <;>
      rcases ht : e.team with _ | t
    · by_cases hs : analysis.severity = "CRITICAL" <;> simp [hl, ht, hs]
    · by_cases hs : analysis.severity = "CRITICAL" <;> simp [hl, ht, hs]
    · by_cases hs : analysis.severity = "CRITICAL" <;> simp [hl, ht, hs]
    · by_cases hb : t = expected
      · subst hb
        by_cases hs : analysis.severity = "CRITICAL" <;> simp [hl, ht, hs]
      · have hb2 : ¬expected = t := fun h => hb h.symm
        by_cases hs : analysis.severity = "CRITICAL" <;>
          simp [hl, ht, hs, hb, hb2]
  refine ⟨hformula, fun e analysis n hlt => ?_⟩
  rw [hformula, hformula]
  dsimp only
  split_ifs <;> omega

/-- Witness for C9 (amended): a loaded engineer scores the formula
value, and adding active reports can only lower the score. -/
theorem engineerScore_formula_monotonic_witness :
    engineerScore
        { id := "e2", name := none, email := "e2@x", team := some "backend",
          activeReports := 2, criticalReports := 1 }
        { bugType := "SQL Injection", severity := "CRITICAL",
          affectedSystem := "db", confidence := 0 } =
      100 - 10 * 2 - 20 * 1 + 30 - 30 * 1 ∧
    engineerScore
        { id := "e2", name := none, email := "e2@x", team := some "backend",
          activeReports := 5, criticalReports := 1 }
        { bugType := "SQL Injection", severity := "CRITICAL",
          affectedSystem := "db", confidence := 0 } ≤
      engineerScore
        { id := "e2", name := none, email := "e2@x", team := some "backend",
          activeReports := 2, criticalReports := 1 }
        { bugType := "SQL Injection", severity := "CRITICAL",
          affectedSystem := "db", confidence := 0 } := by
  constructor
  · rw [engineerScore_formula_monotonic.1]
    decide
  · exact engineerScore_formula_monotonic.2
      { id := "e2", name := none, email := "e2@x", team := some "backend",
        activeReports := 2, criticalReports := 1 }
      { bugType := "SQL Injection", severity := "CRITICAL",
        affectedSystem := "db", confidence := 0 } 5 (by decide)

/-- Dropping a middle element the mapping rejects leaves a
filter-then-filterMap pipeline unchanged. -/
theorem filterMap_filter_middle_none {α β : Type} (P : α → Bool)
    (f : α → Option β) (c : α) (hfc : f c = none) (pre post : List α) :
    ((pre ++ c :: post).filter P).filterMap f =
      ((pre ++ post).filter P).filterMap f := by
  by_cases hPc : P c <;>
    simp [List.filter_append, List.filter_cons, hPc, List.filterMap_append,
      List.filterMap_cons, hfc]

/-- The similarity scan is sorted descending by similarity. -/
theorem findSimilarReports_sorted (reports : List Report) (emb : List ℚ)
    (threshold : ℚ) (ex : Option String) :
    (findSimilarReports reports (some emb) threshold ex).Pairwise
      (fun a b => b.similarity ≤ a.similarity) := by
  unfold findSimilarReports
  dsimp only
  exact (pairwise_sortByKeyDesc _ _).sublist (List.take_sublist _ _)

/-- Every returned match clears the threshold and is not the excluded
report. -/
theorem findSimilarReports_mem_spec (reports : List Report) (emb : List ℚ)
    (threshold : ℚ) (ex : Option String) (m : SimilarityMatch)
    (hm : m ∈ findSimilarReports reports (some emb) threshold ex) :
    threshold ≤ m.similarity ∧ (∀ e, ex = some e → m.id ≠ e) := by
  unfold findSimilarReports at hm
  dsimp only at hm
  have h1 := List.take_subset _ _ hm
  have h2 := (mem_sortByKeyDesc _ _ _).mp h1
  rcases List.mem_filter.mp h2 with ⟨h3, h4⟩
  refine ⟨by simpa using h4, ?_⟩
  rintro e rfl hid
  rcases List.mem_filterMap.mp h3 with ⟨r, hr, hfr⟩
  rcases List.mem_filter.mp hr with ⟨_, hcond⟩
  have hmid : m.id = r.id := by
    rcases hemb : r.embedding with _ | cell
    · rw [hemb] at hfr
      simp at hfr
    · rcases cell with _ | v
      · rw [hemb] at hfr
        simp at hfr
      · rw [hemb] at hfr
        simp only [Option.some_inj] at hfr
        rw [← hfr]

  simp only [Bool.and_eq_true, Bool.not_eq_true'] at hcond
  rcases hcond with ⟨_, hex⟩
  rw [hmid] at hid
  rw [hid] at hex
  simp at hex

/-- C4: for every query embedding, threshold and candidate set, the
similarity scan returns only candidates at or above the threshold,
sorted descending by similarity, capped at 10, never containing the
excluded id; a candidate whose stored embedding fails to deserialize
is skipped without affecting the rest of the scan; and a null query
embedding yields the empty list irrespective of the store. -/
theorem findSimilarReports_contract :
    ∀ (reports : List Report) (emb : List ℚ) (threshold : ℚ) (ex : Option String),
      (∀ m ∈ findSimilarReports reports (some emb) threshold ex,
        threshold ≤ m.similarity) ∧
      (findSimilarReports reports (some emb) threshold ex).Pairwise
        (fun a b => b.similarity ≤ a.similarity) ∧
      (findSimilarReports reports (some emb) threshold ex).length ≤ 10 ∧
      (∀ m ∈ findSimilarReports reports (some emb) threshold ex,
        ∀ e, ex = some e → m.id ≠ e) ∧
      (∀ pre post c, c.embedding = some EmbeddingCell.corrupt →
        reports = pre ++ c :: post →
        findSimilarReports reports (some emb) threshold ex =
          findSimilarReports (pre ++ post) (some emb) threshold ex) ∧
      (∀ anyReports : List Report,
        findSimilarReports anyReports none threshold ex = []) := by
  intro reports emb threshold ex
  refine ⟨fun m hm => (findSimilarReports_mem_spec _ _ _ _ m hm).1,
    findSimilarReports_sorted _ _ _ _, ?_,
    fun m hm => (findSimilarReports_mem_spec _ _ _ _ m hm).2,
    fun pre post c hc hsplit => ?_, fun anyReports => rfl⟩
  · unfold findSimilarReports
    dsimp only
    rw [List.length_take]
    exact min_le_left _ _
  · subst hsplit
    unfold findSimilarReports
    dsimp only
    rw [filterMap_filter_middle_none _ _ c (by simp [hc]) pre post]

/-- Sample stored report with a parseable unit embedding. -/
def sampleVecReport : Report :=
  { id := "r1"
    title := "Existing report"
    description := "d"
    affectedSystem := none
    reporterName := none
    reporterEmail := none
    bugType := none
    severity := none
    status := RStatus.NEW
    assignedEngineerId := none
    duplicateOfId := none
    embedding := some (EmbeddingCell.vec [1])
    aiAnalysis := none }

/-- Sample stored report whose embedding string does not parse. -/
def sampleCorruptReport : Report :=
  { sampleVecReport with id := "r2", embedding := some EmbeddingCell.corrupt }

/-- The similarity match produced by `sampleVecReport` for the unit
query embedding. -/
def sampleMatch : SimilarityMatch :=
  ⟨"r1", "Existing report", RStatus.NEW, 1⟩

/-- Witness for C4: on a two-row store, the corrupt row is skipped, the
surviving match clears the 0.85 threshold and is not the excluded id,
and a null embedding returns nothing. -/
theorem findSimilarReports_contract_witness :
    findSimilarReports [sampleCorruptReport, sampleVecReport] (some [1])
        (85 / 100) (some "r0") =
      findSimilarReports [sampleVecReport] (some [1]) (85 / 100) (some "r0") ∧
    (85 / 100 : ℚ) ≤ sampleMatch.similarity ∧
    sampleMatch.id ≠ "r0" ∧
    findSimilarReports [sampleVecReport] none (85 / 100) (some "r0") = [] := by
  have hmem : sampleMatch ∈
      findSimilarReports [sampleVecReport] (some [1]) (85 / 100) (some "r0") := by
    have hev : findSimilarReports [sampleVecReport] (some [1]) (85 / 100)
        (some "r0") = [sampleMatch] := by
      simp [findSimilarReports, cosineSimilarity, dotProduct, sumsq, msqrt,
        sampleVecReport, sampleMatch, List.filter_cons, List.filterMap_cons,
        List.zip, List.zipWith, sortByKeyDesc, insertKeyDesc]
      norm_num [sortByKeyDesc, insertKeyDesc]
    rw [hev]
    exact List.mem_singleton.mpr rfl
  refine ⟨(findSimilarReports_contract [sampleCorruptReport, sampleVecReport]
      [1] (85 / 100) (some "r0")).2.2.2.2.1 [] [sampleVecReport]
      sampleCorruptReport rfl rfl,
    (findSimilarReports_contract [sampleVecReport] [1] (85 / 100)
      (some "r0")).1 _ hmem,
    (findSimilarReports_contract [sampleVecReport] [1] (85 / 100)
      (some "r0")).2.2.2.1 _ hmem "r0" rfl,
    (findSimilarReports_contract [sampleVecReport] [1] (85 / 100)
      (some "r0")).2.2.2.2.2 [sampleVecReport]⟩

/-- A selected engineer is one of the candidates. -/
theorem selectBestEngineer_mem (engineers : List EngineerInfo)
    (analysis : AnalysisInput) (sel : EngineerInfo)
    (h : selectBestEngineer engineers analysis = some sel) : sel ∈ engineers := by
  unfold selectBestEngineer at h
  rcases hs : sortByKeyDesc (fun e => engineerScore e analysis) engineers with _ | ⟨x, xs⟩
  · rw [hs] at h
    simp at h
  · rw [hs] at h
    simp only [List.head?_cons, Option.some_inj] at h
    subst h
    exact (mem_sortByKeyDesc _ _ _).mp (by rw [hs]; exact List.mem_cons_self _ _)

/-- A non-empty candidate pool always yields a selection. -/
theorem selectBestEngineer_of_ne_nil (engineers : List EngineerInfo)
    (analysis : AnalysisInput) (h : engineers ≠ []) :
    ∃ sel, selectBestEngineer engineers analysis = some sel := by
  unfold selectBestEngineer
  rcases hs : sortByKeyDesc (fun e => engineerScore e analysis) engineers with _ | ⟨x, xs⟩
  · have hlen := length_sortByKeyDesc (fun e => engineerScore e analysis) engineers
    rw [hs] at hlen
    exact absurd (List.length_eq_zero.mp hlen.symm) h
  · exact ⟨x, rfl⟩

/-- Without any ENGINEER-role user, every pool query is empty. -/
theorem findAvailableEngineers_eq_nil (db : DB) (team : Option String)
    (h : db.users.filter (fun u => u.role == Role.ENGINEER) = []) :
    findAvailableEngineers db team = [] := by
  unfold findAvailableEngineers
  rw [List.map_eq_nil_iff, List.filter_eq_nil_iff]
  intro u hu hcomp
  rw [Bool.and_eq_true] at hcomp
  exact (List.filter_eq_nil_iff.mp h u hu) hcomp.1

/-- The global pool is non-empty whenever some ENGINEER-role user
exists. -/
theorem findAvailableEngineers_global_ne_nil (db : DB)
    (h : db.users.filter (fun u => u.role == Role.ENGINEER) ≠ []) :
    findAvailableEngineers db none ≠ [] := by
  unfold findAvailableEngineers
  rw [Ne, List.map_eq_nil_iff]
  intro hnil
  apply h
  rw [List.filter_eq_nil_iff] at hnil ⊢
  intro u hu hrole
  exact hnil u hu (by simp [hrole])

/-- C8: when the mapped team has no engineers but engineers exist
overall, assign succeeds from the global pool; when no ENGINEER-role
user exists at all, assign returns a failure result and leaves the
store — assignments and the report row included — unchanged. -/
theorem assignEngineer_pool_contract :
    ∀ (db : DB) (reportId : String) (analysis : AnalysisInput) (assignedBy : String),
      (findAvailableEngineers db (some (bugTypeToTeam analysis.bugType)) = [] →
        findAvailableEngineers db none ≠ [] →
        (assignEngineer db reportId analysis assignedBy).1.success = true ∧
        ∃ e ∈ findAvailableEngineers db none,
          (assignEngineer db reportId analysis assignedBy).1.assignedEngineerId =
            some e.id) ∧
      (db.users.filter (fun u => u.role == Role.ENGINEER) = [] →
        (assignEngineer db reportId analysis assignedBy).1.success = false ∧
        (assignEngineer db reportId analysis assignedBy).2 = db ∧
        (assignEngineer db reportId analysis assignedBy).2.assignments =
          db.assignments ∧
        (assignEngineer db reportId analysis assignedBy).2.reports = db.reports) := by
  intro db reportId analysis assignedBy
  constructor
  · intro hteam hglobal
    obtain ⟨sel, hsel⟩ := selectBestEngineer_of_ne_nil
      (findAvailableEngineers db none) analysis hglobal
    have hmem := selectBestEngineer_mem _ _ _ hsel
    unfold assignEngineer
    dsimp only
    rw [hteam]
    simp only [List.isEmpty_nil, if_pos]
    rw [hsel]
    exact ⟨rfl, sel, hmem, rfl⟩
  · intro hnoeng
    have h1 := findAvailableEngineers_eq_nil db
      (some (bugTypeToTeam analysis.bugType)) hnoeng
    have h2 := findAvailableEngineers_eq_nil db none hnoeng
    unfold assignEngineer
    dsimp only
    rw [h1]
    simp only [List.isEmpty_nil, if_pos]
    rw [h2]
    exact ⟨rfl, rfl, rfl, rfl⟩

/-- Sample store with one backend engineer and no frontend engineer. -/
def sampleOneEngineerDB : DB :=
  { users := [{ id := "u1", name := some "Dana", email := "dana@x",
                team := some "backend", role := Role.ENGINEER }],
    reports := [], assignments := [], comments := [] }

/-- Sample store with a lone VIEWER-role user and no engineer. -/
def sampleNoEngineerDB : DB :=
  { users := [{ id := "v1", name := none, email := "v1@x",
                team := none, role := Role.VIEWER }],
    reports := [], assignments := [], comments := [] }

/-- Witness for C8: an XSS report (mapped team frontend, which is
empty) still gets assigned from the global pool, and a store without
engineers yields a failure that changes nothing. -/
theorem assignEngineer_pool_contract_witness :
    (assignEngineer sampleOneEngineerDB "r0"
        { bugType := "XSS", severity := "HIGH", affectedSystem := "web",
          confidence := 0 } "system").1.success = true ∧
    (assignEngineer sampleNoEngineerDB "r0"
        { bugType := "XSS", severity := "HIGH", affectedSystem := "web",
          confidence := 0 } "system").1.success = false ∧
    (assignEngineer sampleNoEngineerDB "r0"
        { bugType := "XSS", severity := "HIGH", affectedSystem := "web",
          confidence := 0 } "system").2 = sampleNoEngineerDB := by
  refine ⟨((assignEngineer_pool_contract sampleOneEngineerDB "r0"
      { bugType := "XSS", severity := "HIGH", affectedSystem := "web",
        confidence := 0 } "system").1 (by decide) (by decide)).1, ?_, ?_⟩
  · exact ((assignEngineer_pool_contract sampleNoEngineerDB "r0"
      { bugType := "XSS", severity := "HIGH", affectedSystem := "web",
        confidence := 0 } "system").2 (by decide)).1
  · exact ((assignEngineer_pool_contract sampleNoEngineerDB "r0"
      { bugType := "XSS", severity := "HIGH", affectedSystem := "web",
        confidence := 0 } "system").2 (by decide)).2.1

/-- C10: a reassignment to an existing ENGINEER-role user marks every
ACTIVE assignment of the report REASSIGNED (deleting none), appends one
new ACTIVE assignment, and on the report row changes exactly the
engineer reference and the status — set to IN_PROGRESS unconditionally,
whatever the previous status — leaving every other report field and
every other row unchanged. -/
theorem reassignReport_frame :
    ∀ (db : DB) (reportId newEngineerId assignedBy : String)
      (reason : Option String) (u : User),
      db.users.find? (fun x => x.id == newEngineerId) = some u →
      u.role = Role.ENGINEER →
      db.reports.any (fun r => r.id == reportId) = true →
      (reassignReport db reportId newEngineerId assignedBy reason).1.success = true ∧
      (reassignReport db reportId newEngineerId assignedBy reason).2.assignments.length =
        db.assignments.length + 1 ∧
      (∀ i (hi : i < db.assignments.length),
        (db.assignments[i].reportId = reportId ∧
            db.assignments[i].status = AStatus.ACTIVE →
          (reassignReport db reportId newEngineerId assignedBy reason).2.assignments[i]? =
            some { db.assignments[i] with status := AStatus.REASSIGNED }) ∧
        (¬(db.assignments[i].reportId = reportId ∧
            db.assignments[i].status = AStatus.ACTIVE) →
          (reassignReport db reportId newEngineerId assignedBy reason).2.assignments[i]? =
            some db.assignments[i])) ∧
      (reassignReport db reportId newEngineerId assignedBy reason).2.assignments.getLast? =
        some { reportId := reportId, engineerId := newEngineerId,
               assignedBy := assignedBy, status := AStatus.ACTIVE } ∧
      (reassignReport db reportId newEngineerId assignedBy reason).2.reports.length =
        db.reports.length ∧
      (∀ i (hi : i < db.reports.length),
        (db.reports[i].id = reportId →
          (reassignReport db reportId newEngineerId assignedBy reason).2.reports[i]? =
            some { db.reports[i] with
                   assignedEngineerId := some newEngineerId,
                   status := RStatus.IN_PROGRESS }) ∧
        (db.reports[i].id ≠ reportId →
          (reassignReport db reportId newEngineerId assignedBy reason).2.reports[i]? =
            some db.reports[i])) ∧
      (reassignReport db reportId newEngineerId assignedBy reason).2.users = db.users := by
  intro db reportId newEngineerId assignedBy reason u hfind hrole hany
  have hnrole : ¬(u.role ≠ Role.ENGINEER) := by simp [hrole]
  unfold reassignReport
  rw [hfind]
  try dsimp only
  rw [if_neg hnrole]
  try dsimp only
  rw [if_pos hany]
  unfold updateReport
  try dsimp only
  refine ⟨rfl, by simp, fun i hi => ?_, ?_, by simp, fun i hi => ?_, rfl⟩
  · have hi2 : i < (db.assignments.map (fun (a : Assignment) =>
        if a.reportId == reportId && a.status == AStatus.ACTIVE then
          { a with status := AStatus.REASSIGNED }
        else a)).length := by simpa using hi
    have hbase : ((db.assignments.map (fun (a : Assignment) =>
        if a.reportId == reportId && a.status == AStatus.ACTIVE then
          { a with status := AStatus.REASSIGNED }
        else a)) ++
        [({ reportId := reportId, engineerId := newEngineerId,
            assignedBy := assignedBy, status := AStatus.ACTIVE } : Assignment)])[i]? =
        some (if db.assignments[i].reportId == reportId &&
            db.assignments[i].status == AStatus.ACTIVE then
          { db.assignments[i] with status := AStatus.REASSIGNED }
        else db.assignments[i]) := by
      rw [List.getElem?_append, if_pos hi2, List.getElem?_map,
        List.getElem?_eq_getElem hi]
      rfl
    constructor
    · intro hc
      rw [hbase]
      have hcond : (db.assignments[i].reportId == reportId &&
          db.assignments[i].status == AStatus.ACTIVE) = true := by
        simp [hc.1, hc.2]
      rw [if_pos hcond]
    · intro hc
      rw [hbase]
      have hcond : ¬((db.assignments[i].reportId == reportId &&
          db.assignments[i].status == AStatus.ACTIVE) = true) := by
        simp only [Bool.and_eq_true, beq_iff_eq]
        exact hc
      rw [if_neg hcond]
  · exact List.getLast?_concat _
  · have hbase : ((db.reports.map (fun r =>
        if r.id == reportId then
          { r with assignedEngineerId := some newEngineerId,
                   status := RStatus.IN_PROGRESS }
        else r)))[i]? =
        some (if db.reports[i].id == reportId then
          { db.reports[i] with assignedEngineerId := some newEngineerId,
                               status := RStatus.IN_PROGRESS }
        else db.reports[i]) := by
      rw [List.getElem?_map, List.getElem?_eq_getElem hi]
      rfl
    constructor
    · intro hc
      rw [hbase]
      have hcond : (db.reports[i].id == reportId) = true := by simp [hc]
      rw [if_pos hcond]
    · intro hc
      rw [hbase]
      have hcond : ¬((db.reports[i].id == reportId) = true) := by
        simp only [beq_iff_eq]
        exact hc
      rw [if_neg hcond]

/-- Sample store for reassignment: one engineer, one RESOLVED report,
one ACTIVE assignment to another user. -/
def sampleReassignDB : DB :=
  { users := [{ id := "u1", name := some "Dana", email := "dana@x",
                team := some "backend", role := Role.ENGINEER }],
    reports := [{ id := "r0", title := "Resolved report",
                  description := "d", affectedSystem := none,
                  reporterName := none, reporterEmail := none,
                  bugType := none, severity := none,
                  status := RStatus.RESOLVED,
                  assignedEngineerId := some "u9", duplicateOfId := none,
                  embedding := none, aiAnalysis := none }],
    assignments := [{ reportId := "r0", engineerId := "u9",
                      assignedBy := "system", status := AStatus.ACTIVE }],
    comments := [] }

/-- Witness for C10: reassigning a RESOLVED report succeeds, marks the
old ACTIVE assignment REASSIGNED, appends the new ACTIVE row, and
forces the report to IN_PROGRESS with the new engineer. -/
theorem reassignReport_frame_witness :
    (reassignReport sampleReassignDB "r0" "u1" "admin" none).1.success = true ∧
    (reassignReport sampleReassignDB "r0" "u1" "admin" none).2.assignments.length = 2 ∧
    (reassignReport sampleReassignDB "r0" "u1" "admin" none).2.assignments[0]? =
      some { reportId := "r0", engineerId := "u9", assignedBy := "system",
             status := AStatus.REASSIGNED } ∧
    (reassignReport sampleReassignDB "r0" "u1" "admin" none).2.reports[0]? =
      some { sampleReassignDB.reports[0] with
             assignedEngineerId := some "u1", status := RStatus.IN_PROGRESS } := by
  have h := reassignReport_frame sampleReassignDB "r0" "u1" "admin" none
    { id := "u1", name := some "Dana", email := "dana@x",
      team := some "backend", role := Role.ENGINEER }
    (by decide) rfl (by decide)
  refine ⟨h.1, ?_, ?_, ?_⟩
  · rw [h.2.1]
    decide
  · exact (h.2.2.1 0 (by decide)).1 (by decide)
  · exact (h.2.2.2.2.2.1 0 (by decide)).1 (by decide)

/-- `find?` commutes with a map that preserves the predicate. -/
theorem find?_map_of_pred_eq {α : Type} (l : List α) (p : α → Bool) (f : α → α)
    (hpf : ∀ r, p (f r) = p r) :
    (l.map f).find? p = (l.find? p).map f := by
  induction l with
  | nil => rfl
  | cons x xs ih =>
    by_cases hx : p x
    · rw [List.map_cons, List.find?_cons_of_pos _ (by rw [hpf]; exact hx),
        List.find?_cons_of_pos _ hx]
      rfl
    · rw [List.map_cons, List.find?_cons_of_neg _ (by rw [hpf]; exact hx),
        List.find?_cons_of_neg _ hx, ih]

/-- The analysis-persist write never changes the report id. -/
theorem analysisUpdate_id (r : Report) (analysis : BugAnalysis)
    (e : Option (List ℚ)) (dups : List SimilarityMatch) (now : String) :
    (analysisUpdate r analysis e dups now).id = r.id := by
  unfold analysisUpdate
  rcases e with _ | v <;> rcases dups with _ | ⟨d, ds⟩ <;> rfl

/-- Facts about a `processFound` run whose duplicate check came back
non-empty: no event, assignments untouched, summary unassigned, and the
report rows rewritten by the single analysis-persist write. -/
theorem processFound_dup (db : DB) (reportId : String) (report : Report)
    (ai : Except Unit BugAnalysis) (emb : Except Unit HttpResponse)
    (now : String) (d : SimilarityMatch) (ds : List SimilarityMatch)
    (hd : triageDuplicates db reportId emb = d :: ds) :
    (processFound db reportId report ai emb now).2.2 = [] ∧
    (processFound db reportId report ai emb now).2.1.assignments = db.assignments ∧
    (processFound db reportId report ai emb now).1.assigned = false ∧
    (processFound db reportId report ai emb now).1.assignedTo = none ∧
    (processFound db reportId report ai emb now).2.1.reports.find?
        (fun r => r.id == reportId) =
      (db.reports.find? (fun r => r.id == reportId)).map
        (fun r => if r.id == reportId then
          analysisUpdate r
            (analyzeReport ai report.title report.description report.affectedSystem)
            (generateEmbedding emb) (d :: ds) now
        else r) := by
  unfold processFound
  dsimp only
  rw [hd]
  dsimp only
  rcases hsys : ((updateReport db reportId (fun r =>
      analysisUpdate r
        (analyzeReport ai report.title report.description report.affectedSystem)
        (generateEmbedding emb) (d :: ds) now)).users.find?
      (fun u => u.id == "system")) with _ | su <;>
    rw [hsys] <;>
    refine ⟨rfl, rfl, rfl, rfl, ?_⟩ <;>
    · unfold updateReport
      dsimp only
      exact find?_map_of_pred_eq _ _ _ (fun r => by
        by_cases hr : (r.id == reportId) = true
        · rw [if_pos hr, analysisUpdate_id]
        · rw [if_neg hr])

/-- C1: in a triage run whose duplicate check returns a non-empty list,
the single analysis-persist write sets the report status to DUPLICATE
with the duplicate-of reference naming the top match (whose similarity
bounds every match in the list); the assignment step is not invoked
(assignment rows unchanged, summary unassigned) and no engineer.assigned
event is emitted; conversely, any run that emitted an event or changed
the assignment rows had an empty duplicate list. -/
theorem processReport_duplicate_gating :
    (∀ (db : DB) (reportId : String) (ai : Except Unit BugAnalysis)
        (emb : Except Unit HttpResponse) (now : String)
        (d : SimilarityMatch) (ds : List SimilarityMatch)
        (s : TriageSummary) (db2 : DB) (evs : List Event),
      triageDuplicates db reportId emb = d :: ds →
      processReport db reportId ai emb now = Except.ok (s, db2, evs) →
      evs = [] ∧
      db2.assignments = db.assignments ∧
      s.assigned = false ∧
      s.assignedTo = none ∧
      (∀ m ∈ d :: ds, m.similarity ≤ d.similarity) ∧
      (∃ r2, db2.reports.find? (fun r => r.id == reportId) = some r2 ∧
        r2.status = RStatus.DUPLICATE ∧ r2.duplicateOfId = some d.id)) ∧
    (∀ (db : DB) (reportId : String) (ai : Except Unit BugAnalysis)
        (emb : Except Unit HttpResponse) (now : String)
        (s : TriageSummary) (db2 : DB) (evs : List Event),
      processReport db reportId ai emb now = Except.ok (s, db2, evs) →
      (evs ≠ [] ∨ db2.assignments ≠ db.assignments) →
      triageDuplicates db reportId emb = []) := by
  constructor
  · intro db reportId ai emb now d ds s db2 evs hd hpr
    unfold processReport at hpr
    rcases hf : db.reports.find? (fun r => r.id == reportId) with _ | report <;>
      rw [hf] at hpr
    · simp at hpr
    · simp only [Except.ok.injEq] at hpr
      have h1 := processFound_dup db reportId report ai emb now d ds hd
      rw [hpr] at h1
      dsimp only at h1
      have hsorted : (d :: ds).Pairwise (fun a b => b.similarity ≤ a.similarity) := by
        rw [← hd]
        unfold triageDuplicates
        rcases hge : generateEmbedding emb with _ | e
        · simp
        · exact findSimilarReports_sorted _ _ _ _
      have htop : ∀ m ∈ d :: ds, m.similarity ≤ d.similarity := by
        intro m hm
        rcases List.mem_cons.mp hm with rfl | hm
        · exact le_refl _
        · exact (List.pairwise_cons.mp hsorted).1 m hm
      have hp := List.find?_some hf
      refine ⟨h1.1, h1.2.1, h1.2.2.1, h1.2.2.2.1, htop, ?_⟩
      have hfind := h1.2.2.2.2
      rw [hf] at hfind
      simp only [Option.map_some'] at hfind
      rw [if_pos hp] at hfind
      exact ⟨_, hfind, rfl, rfl⟩
  · intro db reportId ai emb now s db2 evs hpr hchange
    rcases htd : triageDuplicates db reportId emb with _ | ⟨d, ds⟩
    · rfl
    · exfalso
      unfold processReport at hpr
      rcases hf : db.reports.find? (fun r => r.id == reportId) with _ | report <;>
        rw [hf] at hpr
      · simp at hpr
      · simp only [Except.ok.injEq] at hpr
        have h1 := processFound_dup db reportId report ai emb now d ds htd
        rw [hpr] at h1
        dsimp only at h1
        rcases hchange with hc | hc
        · exact hc h1.1
        · exact hc h1.2.1

/-- The freshly submitted report of the orchestrator witness run. -/
def sampleNewReport : Report :=
  { id := "r0"
    title := "New report"
    description := "d"
    affectedSystem := none
    reporterName := none
    reporterEmail := none
    bugType := none
    severity := none
    status := RStatus.NEW
    assignedEngineerId := none
    duplicateOfId := none
    embedding := none
    aiAnalysis := none }

/-- Store for the orchestrator witness run: the new report plus one
stored report whose embedding matches the query exactly. -/
def sampleDupDB : DB :=
  { users := [], reports := [sampleNewReport, sampleVecReport],
    assignments := [], comments := [] }

/-- A successful embedding response carrying the unit vector. -/
def sampleEmbedOk : Except Unit HttpResponse :=
  Except.ok { status := 200, body := BodyParse.embeddingValue [1] }

/-- Witness for C1: a run that finds one duplicate at similarity 1
emits no event, performs no assignment, and persists DUPLICATE status
with the duplicate-of reference naming the match. -/
theorem processReport_duplicate_gating_witness :
    ∃ s db2 evs,
      processReport sampleDupDB "r0" (Except.error ()) sampleEmbedOk "2024-01-01" =
        Except.ok (s, db2, evs) ∧
      evs = [] ∧
      s.assigned = false ∧
      db2.assignments = sampleDupDB.assignments ∧
      ∃ r2, db2.reports.find? (fun r => r.id == "r0") = some r2 ∧
        r2.status = RStatus.DUPLICATE ∧ r2.duplicateOfId = some "r1" := by
  have hd : triageDuplicates sampleDupDB "r0" sampleEmbedOk = [sampleMatch] := by
    simp [triageDuplicates, generateEmbedding, sampleEmbedOk, responseOk,
      sampleDupDB, findSimilarReports, cosineSimilarity, dotProduct, sumsq,
      msqrt, sampleNewReport, sampleVecReport, sampleMatch, List.filter_cons,
      List.filterMap_cons, List.zip, List.zipWith, sortByKeyDesc, insertKeyDesc]
    norm_num [sortByKeyDesc, insertKeyDesc]
  have hfind : sampleDupDB.reports.find? (fun r => r.id == "r0") =
      some sampleNewReport := by decide
  cases hpr : processReport sampleDupDB "r0" (Except.error ()) sampleEmbedOk
      "2024-01-01" with
  | error e =>
    exfalso
    unfold processReport at hpr
    rw [hfind] at hpr
    simp at hpr
  | ok triple =>
    rcases triple with ⟨s, db2, evs⟩
    have h := processReport_duplicate_gating.1 sampleDupDB "r0" (Except.error ())
      sampleEmbedOk "2024-01-01" sampleMatch [] s db2 evs hd hpr
    obtain ⟨r2, hr2, hst, hdup⟩ := h.2.2.2.2.2
    exact ⟨s, db2, evs, rfl, h.1, h.2.2.1, h.2.1, r2, hr2, hst, hdup⟩

end BugFlow
